import Mathlib

/-!
Verification of the WhatsApp chatbot message-processing core
(`src/services/intent_service.py`, `src/services/response_service.py`,
`src/services/conversation_memory.py`, `src/services/sentiment_service.py`,
`src/models/schemas.py`).

The Python code is shallowly embedded: every keyword table, branch and
arithmetic step is transcribed from the source.  Python's `kw in s`
substring test becomes `listContains`, `re.search` becomes a small
executable regular-expression engine (Brzozowski derivatives), datetimes
become natural-number epoch seconds, and the external collaborators
(Jira, the messaging gateway, the LLM) become explicit oracle parameters.
Message text is handled as `List Char` (the character sequence of the
Python string) so that every definition evaluates by kernel reduction.
-/

namespace WhatsBot

/-! ### String helpers (Python `in`, `.lower()`, `.strip()`, `.split()`) -/

/-- Python substring test `needle in hay`, on character lists. -/
def listContains (hay needle : List Char) : Bool :=
  (List.range (hay.length + 1)).any fun i => needle.isPrefixOf (hay.drop i)

/-- Substring test with a string needle against a character-list haystack. -/
def hasSub (hay : List Char) (needle : String) : Bool :=
  listContains hay needle.toList

/-- Python `str.lower()` (ASCII case folding; Arabic letters are unchanged,
matching CPython on the keyword tables used here). -/
def pyLower (s : List Char) : List Char := s.map Char.toLower

/-- Whitespace in the sense of Python (`str.strip`, `\s`):
space, tab, newline, carriage return, vertical tab, form feed. -/
def pyWs (c : Char) : Bool :=
  c = ' ' || c = '\t' || c = '\n' || c = '\r' || c = '\x0b' || c = '\x0c'

/-- Python `str.strip()` with no argument. -/
def pyStrip (s : List Char) : List Char :=
  ((s.dropWhile pyWs).reverse.dropWhile pyWs).reverse

/-- Helper for `pySplit`: accumulate the current word in reverse. -/
def pySplitGo : List Char → List Char → List (List Char)
  | [], acc => if acc.isEmpty then [] else [acc.reverse]
  | c :: cs, acc =>
      if pyWs c then
        if acc.isEmpty then pySplitGo cs [] else acc.reverse :: pySplitGo cs []
      else pySplitGo cs (c :: acc)

/-- Python `str.split()` with no argument: split on whitespace runs,
dropping empty fragments. -/
def pySplit (s : List Char) : List (List Char) := pySplitGo s []

/-- Python `str.isupper()` on a word: it has a cased character and every
cased character is upper case (cased = ASCII letter here). -/
def pyIsUpper (w : List Char) : Bool :=
  (w.any fun c => c.isUpper || c.isLower) && (w.all fun c => !(c.isLower))

/-- Count occurrences of one character (Python `s.count(ch)`). -/
def countChar (s : List Char) (ch : Char) : Nat :=
  (s.filter (fun c => c = ch)).length

/-! ### A tiny regular-expression engine

The Python source uses `re.search` with patterns built from literals,
`(?:a|b)` alternation, `.*`, `\s+`, `\s*`, `\d+` and optional groups.
We embed exactly those constructs.  `reSearch` implements the
"match anywhere" semantics of `re.search` by running the derivative
automaton of `.*pattern` and accepting as soon as it is nullable. -/

/-- Character classes appearing in the source's patterns. -/
inductive CC where
  | anyc : CC
  | wsc : CC
  | digitc : CC
  | chr : Char → CC
deriving DecidableEq

/-- Membership in a character class (`.`, `\s`, `\d`, literal). -/
def ccTest : CC → Char → Bool
  | .anyc, _ => true
  | .wsc, c => pyWs c
  | .digitc, c => c.isDigit
  | .chr a, c => c = a

/-- Regular expressions. -/
inductive RE where
  | emp : RE
  | eps : RE
  | cc : CC → RE
  | seq : RE → RE → RE
  | alt : RE → RE → RE
  | star : RE → RE
deriving DecidableEq

/-- Does the expression accept the empty string? -/
def nullable : RE → Bool
  | .emp => false
  | .eps => true
  | .cc _ => false
  | .seq a b => nullable a && nullable b
  | .alt a b => nullable a || nullable b
  | .star _ => true

/-- Smart sequencing (keeps derivative terms small). -/
def mkSeq : RE → RE → RE
  | .emp, _ => .emp
  | .eps, b => b
  | _, .emp => .emp
  | a, .eps => a
  | a, b => .seq a b

/-- Smart alternation (absorbs `emp`, merges equal branches). -/
def mkAlt : RE → RE → RE
  | .emp, b => b
  | a, .emp => a
  | a, b => if a = b then a else .alt a b

/-- Brzozowski derivative with respect to one character. -/
def deriv : RE → Char → RE
  | .emp, _ => .emp
  | .eps, _ => .emp
  | .cc k, c => if ccTest k c then .eps else .emp
  | .seq a b, c =>
      if nullable a then mkAlt (mkSeq (deriv a c) b) (deriv b c)
      else mkSeq (deriv a c) b
  | .alt a b, c => mkAlt (deriv a c) (deriv b c)
  | .star a, c => mkSeq (deriv a c) (.star a)

/-- Run the derivative automaton, accepting as soon as a match ends. -/
def searchGo : RE → List Char → Bool
  | r, [] => nullable r
  | r, c :: cs => nullable r || searchGo (deriv r c) cs

/-- Python `re.search(r, s) is not None`: match `r` anywhere in `s`. -/
def reSearch (r : RE) (s : List Char) : Bool :=
  searchGo (RE.seq (RE.star (RE.cc .anyc)) r) s

/-- A literal string as a regular expression. -/
def rlit (s : String) : RE :=
  s.toList.foldr (fun c r => RE.seq (RE.cc (.chr c)) r) RE.eps

/-- Non-capturing alternation `(?:a|b|...)`. -/
def ralt (rs : List RE) : RE := rs.foldr RE.alt RE.emp

/-- Alternation of literals. -/
def rlits (ss : List String) : RE := ralt (ss.map rlit)

/-- The `.*` wildcard. -/
def rdotstar : RE := RE.star (RE.cc .anyc)

/-- Python `\s+`. -/
def rws1 : RE := RE.seq (RE.cc .wsc) (RE.star (RE.cc .wsc))

/-- Python `\s*`. -/
def rws0 : RE := RE.star (RE.cc .wsc)

/-- Python `\d+`. -/
def rdigits1 : RE := RE.seq (RE.cc .digitc) (RE.star (RE.cc .digitc))

/-- Optional group `(?:r)?`. -/
def ropt (r : RE) : RE := RE.alt RE.eps r

/-- Chain a list of pieces in sequence. -/
def rseq (rs : List RE) : RE := rs.foldr RE.seq RE.eps

/-! ### Keyword tables of `IntentService` (`intent_service.py` ctor) -/

/-- Transcribed from `IntentService.__init__`: `self._technical_keywords`. -/
def technical_keywords : List String :=
  ["report", "dashboard", "data", "analytics", "kpi", "metric",
   "ai report", "campaign report", "marketing report", "analysis",
   "salesforce", "crm", "system", "ticket", "support", "issue",
   "error", "bug", "not working", "down", "sync", "login",
   "password", "access", "permission", "laptop", "keyboard",
   "website", "api", "database", "server", "deployment"]

/-- Transcribed from `IntentService.__init__`: `self._real_estate_keywords`. -/
def real_estate_keywords : List String :=
  ["villa", "apartment", "penthouse", "property", "bedroom",
   "buy", "sell", "rent", "lease", "viewing", "purchase"]

/-- Problem indicators inside `_is_technical_query`. -/
def problem_indicators : List String :=
  ["issue", "problem", "error", "not working", "broken",
   "down", "failed", "can\x27t", "unable", "wrong",
   "need help", "need support", "not loading", "stuck"]

/-- The five `technical_patterns` regexes of `_is_technical_query`. -/
def technical_patterns : List RE :=
  [rseq [rlits ["salesforce", "crm", "dashboard"], rdotstar,
         rlits ["not", "issue", "error", "problem"]],
   rseq [rlits ["laptop", "keyboard", "computer"], rdotstar,
         rlits ["not working", "broken", "issue"]],
   rseq [rlits ["login", "password", "access"], rdotstar,
         rlits ["issue", "problem", "expired", "denied"]],
   rseq [rlits ["report", "data", "dashboard"], rdotstar,
         rlits ["wrong", "incorrect", "missing", "error"]],
   rseq [rlits ["website", "api", "system"], rdotstar,
         rlits ["down", "not loading", "error", "crashed"]]]

/-- The six `property_patterns` regexes of `_is_real_estate_query`. -/
def property_patterns : List RE :=
  [rseq [rlits ["buy", "purchase", "looking for", "want", "need", "show me"],
         rws1, ropt (rlits ["a", "an"]), rws0, ropt rdigits1, rws0,
         ropt (rlits ["bedroom", "bed", "br"]), rws0,
         rlits ["villa", "apartment", "property", "penthouse"]],
   rseq [rlits ["buy", "rent", "lease"], rws1, rlit "property"],
   rseq [rlits ["villa", "apartment", "property"], rdotstar,
         rlits ["for sale", "for rent", "available"]],
   rseq [rlit "view", ropt (rlit "ing"), rws1, ropt (rlits ["a", "the"]),
         rws0, rlit "property"],
   rseq [rlits ["2", "3", "4", "5"], rws0, rlits ["bed", "bedroom", "br"],
         rws1, rlits ["villa", "apartment"]],
   rseq [rlit "budget", rdotstar, rlits ["villa", "apartment", "property"]]]

/-! ### Query-type detectors (`_is_technical_query`, `_is_real_estate_query`) -/

/-- Number of technical keywords occurring (as substrings) in the lowered
message, as counted by `_is_technical_query`. -/
def technical_count (ml : List Char) : Nat :=
  (technical_keywords.filter (fun k => hasSub ml k)).length

/-- Embedding of `IntentService._is_technical_query` (argument is the raw
message; the function lowers it itself, as the Python does). -/
def is_technical_query (message : List Char) : Bool :=
  let ml := pyLower message
  let tc := technical_count ml
  let has_problem := problem_indicators.any (fun k => hasSub ml k)
  let matches_pattern := technical_patterns.any (fun p => reSearch p ml)
  decide (tc ≥ 2) || (decide (tc ≥ 1) && has_problem) || matches_pattern

/-- Embedding of `IntentService._is_real_estate_query`.  It returns `false`
outright when any technical keyword occurs in the lowered message; only then
does it look at the property patterns and keyword count. -/
def is_real_estate_query (message : List Char) : Bool :=
  let ml := pyLower message
  if technical_keywords.any (fun k => hasSub ml k) then false
  else
    let matches_property_pattern := property_patterns.any (fun p => reSearch p ml)
    let property_keyword_count :=
      (real_estate_keywords.filter (fun k => hasSub ml k)).length
    matches_property_pattern || decide (property_keyword_count ≥ 3)

/-! ### Data model (`models/schemas.py`) -/

/-- The `Priority` enum of `schemas.py`. -/
inductive Priority where
  | lowest : Priority
  | low : Priority
  | medium : Priority
  | high : Priority
  | highest : Priority
deriving DecidableEq

/-- The `Language` enum of `multilingual.py` (EN / AR / MIXED). -/
inductive Lang where
  | english : Lang
  | arabic : Lang
  | mixed : Lang
deriving DecidableEq

/-- The `IntentType` enum of `schemas.py`. -/
inductive IntentType where
  | create_ticket : IntentType
  | check_status : IntentType
  | update_ticket : IntentType
  | close_ticket : IntentType
  | property_inquiry : IntentType
  | schedule_viewing : IntentType
  | general_inquiry : IntentType
deriving DecidableEq

/-- The `PendingTicket` pydantic model of `schemas.py`; `timestamp` is the
creation datetime as epoch seconds. -/
structure PendingTicket where
  user_phone : String
  user_name : String
  summary : String
  description : String
  team : String
  project_key : String
  priority : Priority := .medium
  attachments : List String := []
  timestamp : Nat
  awaiting_confirmation : Bool := true
deriving DecidableEq

/-- Outcome dictionary of `jira_service.create_ticket` (oracle: the external
collaborator's reply). -/
structure JiraResult where
  success : Bool
  ticket_key : String
  summary : String
  error : String
deriving DecidableEq

/-! ### Pending-ticket store (`response_service.py`) -/

/-- `ResponseService._pending_ticket_timeout_minutes`. -/
def pending_ticket_timeout_minutes : Nat := 60

/-- Embedding of `ResponseService.get_pending_ticket` for one user's slot:
returns the stored ticket, unless its age exceeds the timeout, in which case
the ticket is evicted and `none` is returned.  The pair is
(returned value, slot contents afterwards). -/
def get_pending_ticket (now : Nat) (slot : Option PendingTicket) :
    Option PendingTicket × Option PendingTicket :=
  match slot with
  | none => (none, none)
  | some t =>
      if now - t.timestamp > pending_ticket_timeout_minutes * 60 then (none, none)
      else (some t, some t)

/-! ### Confirmation handler (`IntentService._handle_confirmation`) -/

/-- The `new_issue_keywords` list inside `_handle_confirmation`. -/
def new_issue_keywords : List String :=
  ["salesforce", "dashboard", "login", "password", "website",
   "laptop", "keyboard", "error", "not working", "down",
   "report", "data", "sync", "campaign", "urgent", "api",
   "crm", "system", "database", "server", "access"]

/-- The `confirm_keywords` list inside `_handle_confirmation`
(the last three entries are the Arabic yes/agree/fine tokens). -/
def confirm_keywords : List String :=
  ["yes", "confirm", "create", "ok", "sure", "proceed",
   "correct", "right", "good", "yeah", "yep", "y",
   "نعم", "موافق", "تمام"]

/-- The `cancel_keywords` list inside `_handle_confirmation`
(the last two entries are the Arabic no/cancel tokens). -/
def cancel_keywords : List String :=
  ["cancel", "no", "stop", "لا", "إلغاء"]

/-- `issue_keyword_count`: how many new-issue keywords occur as substrings
of the lowered, stripped message. -/
def issue_keyword_count (ml : List Char) : Nat :=
  (new_issue_keywords.filter (fun k => hasSub ml k)).length

/-- `is_confirmation`: some confirmation keyword occurs as a substring. -/
def is_confirmation (ml : List Char) : Bool :=
  confirm_keywords.any (fun w => hasSub ml w)

/-- `is_cancellation`: some cancellation keyword occurs as a substring. -/
def is_cancellation (ml : List Char) : Bool :=
  cancel_keywords.any (fun w => hasSub ml w)

/-- What `_handle_confirmation` did: the `action` field of its returned
dictionary, the number of `send_text_message` calls it made, the
pending-ticket slot it leaves behind, the ticket key it registered via
`add_active_ticket` (if any), and whether it asks the caller to reprocess. -/
structure ConfirmOutcome where
  action : String
  sends : Nat
  slot : Option PendingTicket
  added_ticket : Option String
  reprocess : Bool
deriving DecidableEq

/-- The separator prepended to a modification before it is appended to the
draft's description (`f"\n\n*Additional Information:*\n{message_text}"`). -/
def additional_info_sep : String := "\n\n*Additional Information:*\n"

/-- Embedding of `IntentService._handle_confirmation`.  `pending` is the
draft the caller fetched; `jira` is the collaborator's reply if ticket
creation is attempted.  The branch structure is exactly the source's:
new-issue override (≥ 2 issue keywords and neither a confirm nor a cancel
token), then confirmation (create the ticket — clear the draft only on
success), then cancellation, else modification (append the raw message text
to the description and re-store the draft). -/
def handle_confirmation (message_text : String) (pending : PendingTicket)
    (jira : JiraResult) : ConfirmOutcome :=
  let ml := pyStrip (pyLower message_text.toList)
  if decide (issue_keyword_count ml ≥ 2) && !is_confirmation ml && !is_cancellation ml then
    { action := "new_issue_detected", sends := 1, slot := none,
      added_ticket := none, reprocess := true }
  else if is_confirmation ml then
    if jira.success then
      { action := "created", sends := 1, slot := none,
        added_ticket := some jira.ticket_key, reprocess := false }
    else
      { action := "failed", sends := 1, slot := some pending,
        added_ticket := none, reprocess := false }
  else if is_cancellation ml then
    { action := "cancelled", sends := 1, slot := none,
      added_ticket := none, reprocess := false }
  else
    { action := "updated_preview", sends := 1,
      slot := some { pending with
        description := pending.description ++ additional_info_sep ++ message_text },
      added_ticket := none, reprocess := false }

/-! ### The message pipeline (`IntentService.process_message`)

External collaborators (translation, OpenAI summaries and intent
classification, Jira, the team detector, the session's VIP flag) are
modelled as an oracle record `Env`: the pipeline's control flow and its
externally visible effects (outbound sends, the pending-ticket slot,
registered ticket keys) are computed from the message and these oracles. -/

/-- Oracle values for one `process_message` invocation. -/
structure Env where
  detected_language : Lang
  translated : String
  jira_create : JiraResult
  gen_summary : String
  gen_description : String
  team : String
  project_key : String
  is_vip : Bool
  ai_intent : IntentType
  ai_priority : Option Priority
  status_ticket_key : Option String
  jira_op_success : Bool
deriving DecidableEq

/-- Externally visible outcome of one `process_message` invocation:
how many outbound `send_text_message` calls happened, the pending-ticket
slot afterwards, the final `action` field, and any registered ticket key. -/
structure ProcResult where
  sends : Nat
  slot : Option PendingTicket
  action : String
  added_ticket : Option String
deriving DecidableEq

/-- Embedding of `IntentService._handle_create_ticket`: build a
`PendingTicket` from the oracle-generated summary/description/team, with
priority MEDIUM unless the classifier supplied one, escalated to HIGH for a
VIP session; store it awaiting confirmation and send one preview message. -/
def handle_create_ticket (env : Env) (now : Nat) (user_phone user_name : String)
    (intent_priority : Option Priority) : ProcResult :=
  let priority := intent_priority.getD Priority.medium
  let priority := if env.is_vip then Priority.high else priority
  let pt : PendingTicket :=
    { user_phone := user_phone, user_name := user_name,
      summary := env.gen_summary, description := env.gen_description,
      team := env.team, project_key := env.project_key,
      priority := priority, attachments := [], timestamp := now,
      awaiting_confirmation := true }
  { sends := 1, slot := some pt, action := "awaiting_confirmation",
    added_ticket := none }

/-- Embedding of `IntentService._route_intent` and the non-ticket route
handlers.  Every handler sends exactly one outbound message on every branch
and leaves the pending-ticket slot alone (only `_handle_create_ticket`
stores a draft); the external Jira lookups are oracle fields. -/
def route_intent (env : Env) (now : Nat) (phone name : String)
    (slot : Option PendingTicket) : ProcResult :=
  match env.ai_intent with
  | .create_ticket => handle_create_ticket env now phone name env.ai_priority
  | .check_status =>
      match env.status_ticket_key with
      | none =>
          -- one send either way: the recent-tickets list or a not-found note
          { sends := 1, slot := slot, action := "requested_ticket_key",
            added_ticket := none }
      | some _ =>
          if env.jira_op_success then
            { sends := 1, slot := slot, action := "status_sent",
              added_ticket := none }
          else
            { sends := 1, slot := slot, action := "ticket_not_found",
              added_ticket := none }
  | .update_ticket =>
      match env.status_ticket_key with
      | none =>
          { sends := 1, slot := slot, action := "requested_ticket_key",
            added_ticket := none }
      | some _ =>
          { sends := 1, slot := slot,
            action := if env.jira_op_success then "updated" else "failed",
            added_ticket := none }
  | .close_ticket =>
      match env.status_ticket_key with
      | none =>
          { sends := 1, slot := slot, action := "requested_ticket_key",
            added_ticket := none }
      | some _ =>
          { sends := 1, slot := slot,
            action := if env.jira_op_success then "closed" else "failed",
            added_ticket := none }
  | .property_inquiry =>
      { sends := 1, slot := slot, action := "redirected_to_sales",
        added_ticket := none }
  | .schedule_viewing =>
      { sends := 1, slot := slot, action := "redirected_to_sales",
        added_ticket := none }
  | .general_inquiry =>
      { sends := 1, slot := slot, action := "responded", added_ticket := none }

/-- Steps 6–9 of `process_message` (everything after the pending-ticket
confirmation stage): technical check, real-estate check, then AI intent
routing. -/
def process_rest (env : Env) (now : Nat) (phone name : String)
    (msg : List Char) (slot : Option PendingTicket) : ProcResult :=
  if is_technical_query msg then
    handle_create_ticket env now phone name none
  else if is_real_estate_query msg then
    { sends := 1, slot := slot, action := "redirected_to_sales",
      added_ticket := none }
  else route_intent env now phone name slot

/-- Embedding of `IntentService.process_message`.  Steps 1–4 (language
detection, session bookkeeping, sentiment, VIP) have no outbound sends and
do not touch the pending-ticket slot; step 5 fetches the pending draft
(evicting it if expired) and, when it is awaiting confirmation, delegates
to the confirmation handler — returning its result unless the handler
flagged `new_issue_detected`, in which case processing *continues* with the
same message (the override fallthrough). -/
def process_message (env : Env) (now : Nat) (phone name : String)
    (message_text : String) (slot : Option PendingTicket) : ProcResult :=
  let msgStr : String :=
    if env.detected_language = Lang.arabic then env.translated else message_text
  let fetched := get_pending_ticket now slot
  match fetched.1 with
  | some p =>
      if p.awaiting_confirmation then
        let eff := handle_confirmation msgStr p env.jira_create
        if eff.action = "new_issue_detected" then
          let cont := process_rest env now phone name msgStr.toList eff.slot
          { cont with sends := eff.sends + cont.sends }
        else
          { sends := eff.sends, slot := eff.slot, action := eff.action,
            added_ticket := eff.added_ticket }
      else process_rest env now phone name msgStr.toList fetched.2
  | none => process_rest env now phone name msgStr.toList fetched.2

/-! ### Conversation memory (`conversation_memory.py`) -/

/-- The `ConversationState` enum. -/
inductive ConversationState where
  | greeting : ConversationState
  | inquiry : ConversationState
  | qualification : ConversationState
  | property_search : ConversationState
  | viewing_schedule : ConversationState
  | negotiation : ConversationState
  | documentation : ConversationState
  | support_ticket : ConversationState
  | closed : ConversationState
deriving DecidableEq

/-- The `MessageRole` enum. -/
inductive MessageRole where
  | user : MessageRole
  | agent : MessageRole
  | system : MessageRole
deriving DecidableEq

/-- The `ConversationMessage` model (the free-form metadata dict is not
modelled; no claim concerns it). -/
structure ConversationMessage where
  role : MessageRole
  content : String
  timestamp : Nat
  intent : Option String := none
  confidence : Option ℚ := none
deriving DecidableEq

/-- The `ConversationContext` model, with the fields the claims concern.
`conversation_id` embeds Python's `f"{phone}_{int(now.timestamp())}"` as
its two constituents (the phone and the integer epoch second), on which
the formatted string is injective. -/
structure ConversationContext where
  user_phone : String
  user_name : String
  conversation_id : String × Nat
  state : ConversationState := .greeting
  started_at : Nat
  last_activity : Nat
  message_count : Nat := 0
  messages : List ConversationMessage := []
  is_vip : Bool := false
  vip_tier : Option String := none
  topics_discussed : List String := []
  pending_ticket_key : Option String := none
  active_tickets : List String := []
deriving DecidableEq

/-- `max_history_per_user` as constructed in the module's global instance. -/
def max_history : Nat := 50

/-- `session_timeout_minutes = 30`, in seconds. -/
def session_timeout : Nat := 30 * 60

/-- The inline cleanup interval (300 seconds) in `get_or_create_session`. -/
def cleanup_interval : Nat := 300

/-- Embedding of `ConversationMemoryService._create_new_session`. -/
def create_new_session (now : Nat) (phone name : String) : ConversationContext :=
  { user_phone := phone, user_name := name,
    conversation_id := (phone, now),
    started_at := now, last_activity := now }

/-- The per-session core of `ConversationMemoryService.add_message`: append,
bump `message_count`, refresh `last_activity`, then trim the list to the
last `max_history` entries (`session.messages[-self._max_history:]`). -/
def session_add_message (now : Nat) (s : ConversationContext)
    (m : ConversationMessage) : ConversationContext :=
  let msgs := s.messages ++ [m]
  let msgs := if msgs.length > max_history then
      msgs.drop (msgs.length - max_history) else msgs
  { s with messages := msgs, message_count := s.message_count + 1,
           last_activity := now }

/-- The in-memory session table plus the `_last_cleanup` stamp. -/
structure MemoryState where
  sessions : List (String × ConversationContext)
  last_cleanup : Nat
deriving DecidableEq

/-- The expiry test `now - session.last_activity > self._session_timeout`. -/
def session_expired (now : Nat) (s : ConversationContext) : Bool :=
  decide (now - s.last_activity > session_timeout)

/-- Embedding of `_cleanup_expired_sessions`: archive and evict every
expired session, stamping `_last_cleanup`.  Returns the new state and the
list of archived sessions. -/
def cleanup_expired_sessions (now : Nat) (st : MemoryState) :
    MemoryState × List ConversationContext :=
  ({ sessions := st.sessions.filter (fun p => !session_expired now p.2),
     last_cleanup := now },
   (st.sessions.filter (fun p => session_expired now p.2)).map Prod.snd)

/-- Dictionary lookup `self._sessions[user_phone]`. -/
def findSession : List (String × ConversationContext) → String →
    Option ConversationContext
  | [], _ => none
  | p :: ps, k => if p.1 = k then some p.2 else findSession ps k

/-- Dictionary assignment `self._sessions[user_phone] = session`. -/
def setSession : List (String × ConversationContext) → String →
    ConversationContext → List (String × ConversationContext)
  | [], k, v => [(k, v)]
  | p :: ps, k, v => if p.1 = k then (k, v) :: ps else p :: setSession ps k v

/-- Embedding of `ConversationMemoryService.get_or_create_session`: run the
opportunistic cleanup when it is due, then return the live session
(refreshing its activity stamp), or archive the stale one and create a
fresh session.  Returns (session, new state, all sessions archived by this
call). -/
def get_or_create_session (now : Nat) (phone name : String) (st : MemoryState) :
    ConversationContext × MemoryState × List ConversationContext :=
  let cleaned :=
    if now - st.last_cleanup > cleanup_interval then
      cleanup_expired_sessions now st
    else (st, [])
  let st1 := cleaned.1
  let archived := cleaned.2
  match findSession st1.sessions phone with
  | some s =>
      if session_expired now s then
        let s2 := create_new_session now phone name
        (s2, { st1 with sessions := setSession st1.sessions phone s2 },
         archived ++ [s])
      else
        let s2 := { s with last_activity := now }
        (s2, { st1 with sessions := setSession st1.sessions phone s2 }, archived)
  | none =>
      let s2 := create_new_session now phone name
      (s2, { st1 with sessions := setSession st1.sessions phone s2 }, archived)

/-! ### Sentiment analysis (`sentiment_service.py`) -/

/-- `SentimentAnalyzer._negative_keywords`. -/
def negative_keywords : List (String × Nat) :=
  [("urgent", 3), ("critical", 3), ("emergency", 4), ("immediately", 3),
   ("asap", 2), ("frustrated", 3), ("angry", 3), ("disappointed", 2),
   ("unacceptable", 3), ("terrible", 3), ("worst", 3), ("broken", 2),
   ("not working", 2), ("failed", 2), ("issue", 1), ("problem", 1),
   ("bug", 1), ("error", 1), ("down", 2), ("crash", 2), ("losing", 3),
   ("lost", 3)]

/-- `SentimentAnalyzer._positive_keywords`. -/
def positive_keywords : List (String × Nat) :=
  [("thank", 1), ("thanks", 1), ("appreciate", 2), ("great", 2),
   ("excellent", 2), ("perfect", 2), ("resolved", 2), ("fixed", 2),
   ("working", 1), ("good", 1), ("helpful", 2)]

/-- `SentimentAnalyzer._urgency_patterns`. -/
def urgency_patterns : List RE :=
  [rseq [rlit "need", rdotstar, rlit "immediately"],
   rseq [rlit "urgent", rdotstar, rlit "help"],
   rlit "asap",
   rlit "right now",
   rlit "can\x27t wait",
   rseq [rlit "losing", rdotstar, rlit "money"],
   rseq [rlit "client", rdotstar, rlit "waiting"],
   rseq [rlit "deal", rdotstar, rlit "pending"],
   rseq [rlit "vip", rdotstar, rlit "client"]]

/-- Embedding of `SentimentAnalyzer._calculate_urgency` (the argument it
receives is the already-lowered message, so the ALL-CAPS clause can in fact
never fire — that is the source's behaviour, preserved here). -/
def calculate_urgency (message : List Char) : Nat :=
  let u1 := min (countChar message '!') 3
  let caps_words := (pySplit message).filter
    (fun w => pyIsUpper w && decide (w.length > 3))
  let u2 := min caps_words.length 2
  let u3 := min (countChar message '?') 1
  u1 + u2 + u3

/-- One entry of `_user_frustration_history`. -/
structure FrustEntry where
  timestamp : Nat
  sentiment : ℚ
  urgency : Nat
deriving DecidableEq

/-- `_frustration_window_minutes = 30`, in seconds. -/
def frustration_window : Nat := 30 * 60

/-- Embedding of `_update_frustration_history`: append the new entry, then
drop entries at or before the window cutoff (`entry["timestamp"] > cutoff`). -/
def update_frustration_history (now : Nat) (score : ℚ) (urgency : Nat)
    (hist : List FrustEntry) : List FrustEntry :=
  let h := hist ++ [{ timestamp := now, sentiment := score, urgency := urgency }]
  h.filter (fun e => decide (e.timestamp > now - frustration_window))

/-- Embedding of `_check_repeat_frustration`: with fewer than two entries no
boost; otherwise at least two of the last three entries must have sentiment
below −0.3. -/
def check_repeat_frustration (hist : List FrustEntry) : Bool :=
  if hist.length < 2 then false
  else
    let recent := hist.drop (hist.length - 3)
    decide ((recent.filter (fun e => decide (e.sentiment < -(3 : ℚ)/10))).length ≥ 2)

/-- The fields of the dictionary `analyze_sentiment` returns that the claims
concern (`score` is kept exact; the Python rounds it to two decimals only
when placing it in the result dictionary). -/
structure SentimentResult where
  sentiment : String
  score : ℚ
  urgency : Nat
  escalate : Bool
deriving DecidableEq

/-- Sum of the weights of the keywords of a table occurring in the message
(the `for keyword, weight ...: if keyword in message_lower: score += weight`
loops of `analyze_sentiment`). -/
def keyword_score (kws : List (String × Nat)) (ml : List Char) : Nat :=
  (kws.filter (fun kw => hasSub ml kw.1)).foldl (fun a kw => a + kw.2) 0

/-- The normalised sentiment score of `analyze_sentiment`:
`(positive - negative) / total` when any keyword hit, else `0.0`. -/
def sentiment_score_of (ml : List Char) : ℚ :=
  let n := keyword_score negative_keywords ml
  let p := keyword_score positive_keywords ml
  if n + p > 0 then ((p : ℚ) - (n : ℚ)) / ((n + p : Nat) : ℚ) else 0

/-- The sentiment category thresholds of `analyze_sentiment`
(`> 0.3` positive, `< -0.3` negative, else neutral). -/
def sentiment_label (ml : List Char) : String :=
  if sentiment_score_of ml > (3 : ℚ)/10 then "positive"
  else if sentiment_score_of ml < -(3 : ℚ)/10 then "negative"
  else "neutral"

/-- The urgency `analyze_sentiment` computes before the repeat-frustration
boost: `_calculate_urgency` plus 2 per matching urgency pattern, capped
at 10. -/
def pre_boost_urgency (ml : List Char) : Nat :=
  min (calculate_urgency ml +
    2 * (urgency_patterns.filter (fun p => reSearch p ml)).length) 10

/-- Embedding of `SentimentAnalyzer.analyze_sentiment` for a caller that
passes a `user_phone` (as the pipeline always does): keyword scoring,
normalised score, urgency plus 2 per matching urgency pattern capped at 10,
frustration-history update followed by the repeat-frustration boost
(+3, still capped at 10), then the escalation rule.  Returns the result and
the user's new frustration history. -/
def analyze_sentiment (message : String) (now : Nat) (hist : List FrustEntry) :
    SentimentResult × List FrustEntry :=
  let ml := pyLower message.toList
  let score := sentiment_score_of ml
  let sentiment := sentiment_label ml
  let u0 := pre_boost_urgency ml
  let hist2 := update_frustration_history now score u0 hist
  let urgency := if check_repeat_frustration hist2 then min (u0 + 3) 10 else u0
  let should_escalate :=
    decide (urgency ≥ 7) ||
      (decide (sentiment = "negative") && decide (urgency ≥ 5)) ||
      hasSub ml "vip" || (hasSub ml "urgent" && hasSub ml "client")
  ({ sentiment := sentiment, score := score, urgency := urgency,
     escalate := should_escalate }, hist2)

/-! ### Concrete fixtures used by witnesses and counterexamples -/

/-- A concrete pending draft awaiting confirmation. -/
def examplePending : PendingTicket :=
  { user_phone := "+971500000001", user_name := "Alex",
    summary := "Salesforce sync failing",
    description := "Salesforce sync is failing, losing leads",
    team := "CRM Support", project_key := "SUP", priority := .medium,
    attachments := [], timestamp := 1000, awaiting_confirmation := true }

/-- A successful Jira `create_ticket` reply. -/
def exampleJiraOk : JiraResult :=
  { success := true, ticket_key := "SUP-123",
    summary := "Salesforce sync failing", error := "" }

/-- A failed Jira `create_ticket` reply. -/
def exampleJiraFail : JiraResult :=
  { success := false, ticket_key := "", summary := "",
    error := "service unavailable" }

/-- A concrete oracle environment: English message, Jira available,
AI fallback intent `general_inquiry`. -/
def exampleEnv : Env :=
  { detected_language := .english, translated := "",
    jira_create := exampleJiraOk, gen_summary := "Salesforce error report",
    gen_description := "User reports a Salesforce error",
    team := "Analytics", project_key := "SUP", is_vip := false,
    ai_intent := .general_inquiry, ai_priority := none,
    status_ticket_key := none, jira_op_success := true }

/-! ### Helper lemmas about the confirmation handler -/

/-- On an ambiguous message (no override, no confirm token, no cancel
token) the handler takes the modification branch. -/
theorem modification_step (m : String) (p : PendingTicket) (j : JiraResult)
    (hnc : is_confirmation (pyStrip (pyLower m.toList)) = false)
    (hnx : is_cancellation (pyStrip (pyLower m.toList)) = false)
    (hk : issue_keyword_count (pyStrip (pyLower m.toList)) < 2) :
    handle_confirmation m p j =
      { action := "updated_preview", sends := 1,
        slot := some { p with
          description := p.description ++ additional_info_sep ++ m },
        added_ticket := none, reprocess := false } := by
  have hnc2 : is_confirmation (pyStrip (pyLower m.data)) = false := hnc
  have hnx2 : is_cancellation (pyStrip (pyLower m.data)) = false := hnx
  have hk2 : ¬ 2 ≤ issue_keyword_count (pyStrip (pyLower m.data)) := by
    have h : issue_keyword_count (pyStrip (pyLower m.data)) < 2 := hk
    omega
  unfold handle_confirmation
  simp [hnc2, hnx2, hk2]

/-- With a confirmation token present (as a substring), the handler attempts
ticket creation: the outcome is the Jira call's outcome. -/
theorem confirmation_branch (m : String) (p : PendingTicket) (j : JiraResult)
    (hconf : is_confirmation (pyStrip (pyLower m.toList)) = true) :
    handle_confirmation m p j =
      (if j.success then
        { action := "created", sends := 1, slot := none,
          added_ticket := some j.ticket_key, reprocess := false }
       else
        { action := "failed", sends := 1, slot := some p,
          added_ticket := none, reprocess := false }) := by
  have hconf2 : is_confirmation (pyStrip (pyLower m.data)) = true := hconf
  unfold handle_confirmation
  simp [hconf2]

/-- When the override condition holds (≥ 2 new-issue keywords, no confirm
token, no cancel token) the handler clears the draft and flags a reprocess. -/
theorem override_branch (m : String) (p : PendingTicket) (j : JiraResult)
    (hkw : issue_keyword_count (pyStrip (pyLower m.toList)) ≥ 2)
    (hnc : is_confirmation (pyStrip (pyLower m.toList)) = false)
    (hnx : is_cancellation (pyStrip (pyLower m.toList)) = false) :
    handle_confirmation m p j =
      { action := "new_issue_detected", sends := 1, slot := none,
        added_ticket := none, reprocess := true } := by
  have hnc2 : is_confirmation (pyStrip (pyLower m.data)) = false := hnc
  have hnx2 : is_cancellation (pyStrip (pyLower m.data)) = false := hnx
  have hk2 : 2 ≤ issue_keyword_count (pyStrip (pyLower m.data)) := hkw
  unfold handle_confirmation
  simp [hnc2, hnx2, hk2]

/-! ### C1 — confirmation precedence -/

/-- C1: while a draft awaits confirmation, a message containing a
confirmation token (substring) and at least two new-issue keywords is
resolved as a confirmation — ticket creation is attempted (`created` on
collaborator success, `failed` otherwise) and never as the new-issue
override: the confirm token vetoes the override branch. -/
theorem c1_confirmation_precedence (m : String) (p : PendingTicket)
    (j : JiraResult)
    (hconf : is_confirmation (pyStrip (pyLower m.toList)) = true)
    (_hkw : issue_keyword_count (pyStrip (pyLower m.toList)) ≥ 2) :
    (handle_confirmation m p j).action =
      (if j.success then "created" else "failed") ∧
    (handle_confirmation m p j).action ≠ "new_issue_detected" := by
  rw [confirmation_branch m p j hconf]
  cases hj : j.success <;> simp

/-- C1 witness: the spec's own example message contains the confirm token
`yes` and three new-issue keywords, and resolves as `created`. -/
theorem c1_confirmation_precedence_witness :
    is_confirmation (pyStrip (pyLower
      "yes, by the way salesforce is down and dashboard is broken".toList)) = true ∧
    issue_keyword_count (pyStrip (pyLower
      "yes, by the way salesforce is down and dashboard is broken".toList)) ≥ 2 ∧
    (handle_confirmation "yes, by the way salesforce is down and dashboard is broken"
      examplePending exampleJiraOk).action = "created" := by
  refine ⟨by decide, by decide, ?_⟩
  have h := c1_confirmation_precedence
    "yes, by the way salesforce is down and dashboard is broken"
    examplePending exampleJiraOk (by decide) (by decide)
  simpa [exampleJiraOk] using h.1

/-! ### C10 — substring token detection -/

/-- C10: confirmation and cancellation tokens are detected by substring
containment over the whole lowered message, not by word matching: whenever
any confirm keyword occurs as a substring the handler attempts ticket
creation regardless of how many new-issue keywords are present; `ok` occurs
inside `broken` and therefore a message like "everything is broken" counts
as a confirmation, and `no` occurs inside `not working`, which counts as
containing a cancellation token. -/
theorem c10_substring_tokens :
    (∀ (m : String) (p : PendingTicket) (j : JiraResult),
       is_confirmation (pyStrip (pyLower m.toList)) = true →
       (handle_confirmation m p j).action =
         (if j.success then "created" else "failed")) ∧
    hasSub "broken".toList "ok" = true ∧
    is_confirmation (pyStrip (pyLower "everything is broken".toList)) = true ∧
    hasSub "not working".toList "no" = true ∧
    is_cancellation (pyStrip (pyLower "it is not working".toList)) = true := by
  refine ⟨?_, by decide, by decide, by decide, by decide⟩
  intro m p j hconf
  rw [confirmation_branch m p j hconf]
  cases hj : j.success <;> simp

/-- C10 witness: "everything is broken" (no word-level yes) is handled as a
confirmation; with the Jira collaborator failing, the action is `failed`. -/
theorem c10_substring_tokens_witness :
    (handle_confirmation "everything is broken" examplePending
      exampleJiraFail).action = "failed" := by
  have h := c10_substring_tokens.1 "everything is broken" examplePending
    exampleJiraFail (by decide)
  simpa [exampleJiraFail] using h

/-! ### C3 — atomicity on ticket-creation failure -/

/-- C3: on a confirmation, if the external ticket creation fails the handler
replies with an error and leaves the draft stored (so the user may retry);
only on success is the draft cleared, and then the returned key is
registered among the session's active tickets. -/
theorem c3_atomic_failure (m : String) (p : PendingTicket) (j : JiraResult)
    (hconf : is_confirmation (pyStrip (pyLower m.toList)) = true) :
    (j.success = false →
       (handle_confirmation m p j).slot = some p ∧
       (handle_confirmation m p j).action = "failed" ∧
       (handle_confirmation m p j).added_ticket = none ∧
       (handle_confirmation m p j).sends = 1) ∧
    (j.success = true →
       (handle_confirmation m p j).slot = none ∧
       (handle_confirmation m p j).action = "created" ∧
       (handle_confirmation m p j).added_ticket = some j.ticket_key) := by
  rw [confirmation_branch m p j hconf]
  constructor
  · intro hj; simp [hj]
  · intro hj; simp [hj]

/-- C3 witness: a failing Jira call on "yes please" keeps the draft in the
slot and reports `failed`. -/
theorem c3_atomic_failure_witness :
    (handle_confirmation "yes please" examplePending exampleJiraFail).slot =
      some examplePending ∧
    (handle_confirmation "yes please" examplePending exampleJiraFail).action =
      "failed" := by
  have h := (c3_atomic_failure "yes please" examplePending exampleJiraFail
    (by decide)).1 (by rfl)
  exact ⟨h.1, h.2.1⟩

/-! ### C4 — modification frame property -/

/-- C4: an ambiguous message while a draft is pending (no override, no
confirm token, no cancel token) is appended to the draft's description and
the draft re-stored; summary, team, project key, priority and timestamp
(hence the TTL base) are unchanged and `awaiting_confirmation` remains
true.  Doing this three times in a row accumulates all three fragments in
order. -/
theorem c4_modification_frame (p : PendingTicket) (j : JiraResult)
    (hawait : p.awaiting_confirmation = true) :
    (∀ m : String,
       is_confirmation (pyStrip (pyLower m.toList)) = false →
       is_cancellation (pyStrip (pyLower m.toList)) = false →
       issue_keyword_count (pyStrip (pyLower m.toList)) < 2 →
       ∃ p1, (handle_confirmation m p j).slot = some p1 ∧
         (handle_confirmation m p j).action = "updated_preview" ∧
         (handle_confirmation m p j).sends = 1 ∧
         p1.description = p.description ++ additional_info_sep ++ m ∧
         p1.summary = p.summary ∧ p1.team = p.team ∧
         p1.project_key = p.project_key ∧ p1.priority = p.priority ∧
         p1.timestamp = p.timestamp ∧ p1.awaiting_confirmation = true) ∧
    (∀ m1 m2 m3 : String,
       is_confirmation (pyStrip (pyLower m1.toList)) = false →
       is_cancellation (pyStrip (pyLower m1.toList)) = false →
       issue_keyword_count (pyStrip (pyLower m1.toList)) < 2 →
       is_confirmation (pyStrip (pyLower m2.toList)) = false →
       is_cancellation (pyStrip (pyLower m2.toList)) = false →
       issue_keyword_count (pyStrip (pyLower m2.toList)) < 2 →
       is_confirmation (pyStrip (pyLower m3.toList)) = false →
       is_cancellation (pyStrip (pyLower m3.toList)) = false →
       issue_keyword_count (pyStrip (pyLower m3.toList)) < 2 →
       ∃ p1 p2 p3,
         (handle_confirmation m1 p j).slot = some p1 ∧
         (handle_confirmation m2 p1 j).slot = some p2 ∧
         (handle_confirmation m3 p2 j).slot = some p3 ∧
         p3.description = p.description ++ additional_info_sep ++ m1 ++
           additional_info_sep ++ m2 ++ additional_info_sep ++ m3 ∧
         p1.awaiting_confirmation = true ∧ p2.awaiting_confirmation = true ∧
         p3.awaiting_confirmation = true ∧ p3.timestamp = p.timestamp) := by
  constructor
  · intro m hnc hnx hk
    rw [modification_step m p j hnc hnx hk]
    exact ⟨_, rfl, rfl, rfl, by simp [hawait]⟩
  · intro m1 m2 m3 hnc1 hnx1 hk1 hnc2 hnx2 hk2 hnc3 hnx3 hk3
    refine ⟨{ p with description := p.description ++ additional_info_sep ++ m1 },
            { p with description := p.description ++ additional_info_sep ++ m1
                       ++ additional_info_sep ++ m2 },
            { p with description := p.description ++ additional_info_sep ++ m1
                       ++ additional_info_sep ++ m2 ++ additional_info_sep ++ m3 },
            ?_, ?_, ?_, rfl, ?_, ?_, ?_, rfl⟩
    · rw [modification_step m1 p j hnc1 hnx1 hk1]
    · rw [modification_step m2 _ j hnc2 hnx2 hk2]
    · rw [modification_step m3 _ j hnc3 hnx3 hk3]
    · exact hawait
    · exact hawait
    · exact hawait

/-- C4 witness: three concrete ambiguous clarifications accumulate in the
description, in order, with the draft still awaiting confirmation. -/
theorem c4_modification_frame_witness :
    (handle_confirmation "it started last week"
      examplePending exampleJiraOk).slot =
      some { examplePending with
        description := examplePending.description ++ additional_info_sep ++
          "it started last week" } ∧
    ∃ p1 p2 p3,
      (handle_confirmation "it started last week" examplePending
        exampleJiraOk).slot = some p1 ∧
      (handle_confirmation "it fails each time i upload" p1
        exampleJiraOk).slot = some p2 ∧
      (handle_confirmation "the team uses chrome" p2 exampleJiraOk).slot =
        some p3 ∧
      p3.description = examplePending.description ++ additional_info_sep ++
        "it started last week" ++ additional_info_sep ++
        "it fails each time i upload" ++ additional_info_sep ++
        "the team uses chrome" ∧
      p3.awaiting_confirmation = true := by
  have h := c4_modification_frame examplePending exampleJiraOk (by rfl)
  constructor
  · decide
  · obtain ⟨p1, p2, p3, h1, h2, h3, hd, ha1, ha2, ha3, hts⟩ :=
      h.2 "it started last week" "it fails each time i upload"
        "the team uses chrome"
        (by decide) (by decide) (by decide)
        (by decide) (by decide) (by decide)
        (by decide) (by decide) (by decide)
    exact ⟨p1, p2, p3, h1, h2, h3, hd, ha3⟩

/-! ### C2 — override fallthrough -/

/-- C2 counterexample: the spec's example message "the dashboard is broken
and salesforce login failed" does contain at least two new-issue keywords,
but the substring-based token detection also finds the confirm token `ok`
inside `broken`, so the handler resolves it as a confirmation (the stale
draft is turned into a ticket), not as the new-issue override the claim
asserts. -/
theorem c2_override_fallthrough_counterexample :
    issue_keyword_count (pyStrip (pyLower
      "the dashboard is broken and salesforce login failed".toList)) ≥ 2 ∧
    is_confirmation (pyStrip (pyLower
      "the dashboard is broken and salesforce login failed".toList)) = true ∧
    (handle_confirmation "the dashboard is broken and salesforce login failed"
      examplePending exampleJiraOk).action = "created" ∧
    (handle_confirmation "the dashboard is broken and salesforce login failed"
      examplePending exampleJiraOk).action ≠ "new_issue_detected" := by
  refine ⟨by decide, by decide, by decide, by decide⟩

/-- C2 (amended): while an unexpired draft awaits confirmation, a message
with at least two new-issue keywords in which the handler's substring-based
detection finds neither a confirm nor a cancel token resolves as the
new-issue override: the old draft is cleared, one acknowledgement is sent,
and `process_message` continues with the same message — when that message is
technical, a fresh draft built from it is stored awaiting confirmation (one
more send: the new preview). -/
theorem c2_override_fallthrough (env : Env) (now : Nat) (phone name : String)
    (m : String) (p : PendingTicket)
    (hlang : env.detected_language = Lang.english)
    (hawait : p.awaiting_confirmation = true)
    (hfresh : now - p.timestamp ≤ pending_ticket_timeout_minutes * 60)
    (hkw : issue_keyword_count (pyStrip (pyLower m.toList)) ≥ 2)
    (hnc : is_confirmation (pyStrip (pyLower m.toList)) = false)
    (hnx : is_cancellation (pyStrip (pyLower m.toList)) = false)
    (htech : is_technical_query m.toList = true) :
    process_message env now phone name m (some p) =
      { sends := 2,
        slot := some { user_phone := phone, user_name := name,
                       summary := env.gen_summary,
                       description := env.gen_description,
                       team := env.team, project_key := env.project_key,
                       priority := if env.is_vip then Priority.high
                         else Priority.medium,
                       attachments := [], timestamp := now,
                       awaiting_confirmation := true },
        action := "awaiting_confirmation", added_ticket := none } := by
  have hover := override_branch m p env.jira_create hkw hnc hnx
  have hget : get_pending_ticket now (some p) = (some p, some p) := by
    unfold get_pending_ticket
    simp [Nat.not_lt.mpr hfresh]
  have htech2 : is_technical_query m.data = true := htech
  unfold process_message
  rw [hlang]
  simp only [hget]
  simp [hawait, hover, process_rest, htech2, handle_create_ticket]

/-- C2 witness: with the stale draft pending, "salesforce error" (two issue
keywords, no confirm/cancel substrings, technical) overrides it: two sends
and a fresh draft from the oracle summary. -/
theorem c2_override_fallthrough_witness :
    (process_message exampleEnv 2000 "+971500000001" "Alex"
      "salesforce error" (some examplePending)).sends = 2 ∧
    (process_message exampleEnv 2000 "+971500000001" "Alex"
      "salesforce error" (some examplePending)).slot =
      some { user_phone := "+971500000001", user_name := "Alex",
             summary := exampleEnv.gen_summary,
             description := exampleEnv.gen_description,
             team := exampleEnv.team, project_key := exampleEnv.project_key,
             priority := Priority.medium, attachments := [],
             timestamp := 2000, awaiting_confirmation := true } ∧
    (process_message exampleEnv 2000 "+971500000001" "Alex"
      "salesforce error" (some examplePending)).action =
      "awaiting_confirmation" := by
  have h := c2_override_fallthrough exampleEnv 2000 "+971500000001" "Alex"
    "salesforce error" examplePending (by rfl) (by rfl) (by decide)
    (by decide) (by decide) (by decide) (by decide)
  rw [h]
  refine ⟨rfl, ?_, rfl⟩
  simp [exampleEnv]

/-! ### Send-count lemmas for the pipeline -/

/-- Every branch of the confirmation handler performs exactly one outbound
send. -/
theorem handle_confirmation_sends (m : String) (p : PendingTicket)
    (j : JiraResult) : (handle_confirmation m p j).sends = 1 := by
  simp only [handle_confirmation]
  repeat' split
  all_goals rfl

/-- Every route handler performs exactly one outbound send. -/
theorem route_intent_sends (env : Env) (now : Nat) (phone name : String)
    (slot : Option PendingTicket) :
    (route_intent env now phone name slot).sends = 1 := by
  obtain ⟨dl, tr, jc, gs, gd, tm, pk, vip, ai, ap, sk, js⟩ := env
  cases ai <;> cases sk <;> cases js <;> rfl

/-- The post-confirmation stages (technical check, real-estate check,
AI routing) perform exactly one outbound send. -/
theorem process_rest_sends (env : Env) (now : Nat) (phone name : String)
    (msg : List Char) (slot : Option PendingTicket) :
    (process_rest env now phone name msg slot).sends = 1 := by
  unfold process_rest
  split
  · rfl
  · split
    · rfl
    · exact route_intent_sends env now phone name slot

/-! ### C5 — outbound sends per invocation -/

/-- The pending-confirmation stage of `process_message` resolved as the
new-issue override (the fallthrough case): a draft was fetched, it was
awaiting confirmation, and the handler flagged `new_issue_detected`. -/
def override_fallthrough_happens (env : Env) (now : Nat)
    (message_text : String) (slot : Option PendingTicket) : Bool :=
  let msgStr : String :=
    if env.detected_language = Lang.arabic then env.translated
    else message_text
  match (get_pending_ticket now slot).1 with
  | some p => p.awaiting_confirmation &&
      decide ((handle_confirmation msgStr p env.jira_create).action =
        "new_issue_detected")
  | none => false

/-- C5 counterexample: on the override fallthrough the pipeline sends
twice in a single `process_message` invocation (the override
acknowledgement and then the fresh draft's confirmation preview), not
0 or 1 times as claimed. -/
theorem c5_single_send_counterexample :
    (process_message exampleEnv 2000 "+971500000001" "Alex"
      "salesforce error" (some examplePending)).sends = 2 := by decide

/-- C5 (amended): every `process_message` invocation performs exactly one
outbound send, except when the pending-confirmation stage resolves as the
new-issue override and falls through, in which case it performs exactly
two (the acknowledgement plus the reply of the re-entered pipeline); in
particular there is never a silent (0-send) invocation. -/
theorem c5_send_count (env : Env) (now : Nat) (phone name : String)
    (message_text : String) (slot : Option PendingTicket) :
    (process_message env now phone name message_text slot).sends =
      (if override_fallthrough_happens env now message_text slot then 2
       else 1) := by
  cases slot with
  | none =>
      simp [process_message, override_fallthrough_happens, get_pending_ticket,
        process_rest_sends]
  | some t =>
      obtain ⟨up, un, su, de, te, pk, pr, att, ts, aw⟩ := t
      by_cases hexp : now - ts > pending_ticket_timeout_minutes * 60
      · simp [process_message, override_fallthrough_happens,
          get_pending_ticket, hexp, process_rest_sends]
      · cases aw with
        | false =>
            simp [process_message, override_fallthrough_happens,
              get_pending_ticket, hexp, process_rest_sends]
        | true =>
            by_cases hact :
              (handle_confirmation
                (if env.detected_language = Lang.arabic then env.translated
                 else message_text)
                ⟨up, un, su, de, te, pk, pr, att, ts, true⟩
                env.jira_create).action = "new_issue_detected"
            · simp [process_message, override_fallthrough_happens,
                get_pending_ticket, hexp, hact, process_rest_sends,
                handle_confirmation_sends]
            · simp [process_message, override_fallthrough_happens,
                get_pending_ticket, hexp, hact, handle_confirmation_sends]

/-! ### C8 — technical keywords beat property keywords -/

/-- C8 counterexample: "buy villa system" carries the technical keyword
`system` and the property words `buy` and `villa`; the claim says the
pipeline classifies it as technical, but with only one technical keyword
and neither a problem indicator nor a technical pattern the technical
detector rejects it — the pipeline routes it to the AI intent stage
(neither technical nor a property redirect). -/
theorem c8_technical_precedence_counterexample :
    technical_keywords.any
      (fun k => hasSub (pyLower "buy villa system".toList) k) = true ∧
    (real_estate_keywords.filter
      (fun k => hasSub (pyLower "buy villa system".toList) k)).length ≥ 2 ∧
    is_technical_query "buy villa system".toList = false ∧
    is_real_estate_query "buy villa system".toList = false ∧
    (process_message exampleEnv 0 "+971500000001" "Alex" "buy villa system"
      none).action = "responded" := by
  exact ⟨by decide, by decide, by decide, by decide, by decide⟩

/-- C8 (amended): whenever any technical keyword occurs in the message, the
real-estate detector returns false outright (its technical-keyword veto),
so the query-type stage never classifies such a message as a property
inquiry; and since the technical check runs first, whenever the technical
detector fires the pipeline goes straight to ticket-draft creation.  The
message is classified technical only when the technical detector's
thresholds are met, not for every message containing a technical keyword
(and the LLM-intent fallback can still route elsewhere). -/
theorem c8_technical_over_property (env : Env) (now : Nat)
    (phone name : String) (message_text : String)
    (hkw : technical_keywords.any
      (fun k => hasSub (pyLower message_text.toList) k) = true)
    (hlang : env.detected_language = Lang.english) :
    is_real_estate_query message_text.toList = false ∧
    (is_technical_query message_text.toList = true →
       process_message env now phone name message_text none =
         handle_create_ticket env now phone name none) := by
  have hkw2 : technical_keywords.any
      (fun k => hasSub (pyLower message_text.data) k) = true := hkw
  constructor
  · unfold is_real_estate_query
    simp [hkw2]
  · intro ht
    have ht2 : is_technical_query message_text.data = true := ht
    unfold process_message
    rw [hlang]
    simp only [get_pending_ticket]
    unfold process_rest
    simp [ht2]

/-- C8 witness: "dashboard error" (two technical keywords and property-free)
is vetoed by the real-estate detector and routed to draft creation. -/
theorem c8_technical_over_property_witness :
    is_real_estate_query "dashboard error".toList = false ∧
    (process_message exampleEnv 0 "+971500000001" "Alex" "dashboard error"
      none).action = "awaiting_confirmation" := by
  have h := c8_technical_over_property exampleEnv 0 "+971500000001" "Alex"
    "dashboard error" (by decide) (by rfl)
  refine ⟨h.1, ?_⟩
  rw [h.2 (by decide)]
  rfl

/-! ### C6 — history cap -/

/-- Trimming to the last `max_history` entries is uniformly a `drop`
(when the list is within the cap, the drop count is zero). -/
theorem trim_eq (l : List ConversationMessage) :
    (if l.length > max_history then l.drop (l.length - max_history) else l) =
      l.drop (l.length - max_history) := by
  split
  · rfl
  · have h0 : l.length - max_history = 0 := by omega
    rw [h0, List.drop_zero]

/-- Dropping from an already-dropped prefix of an append is one combined
drop. -/
theorem drop_chain {α : Type} (l ms : List α) (k j : Nat)
    (hk : k ≤ l.length) :
    List.drop j (List.drop k l ++ ms) = List.drop (j + k) (l ++ ms) := by
  have h1 : List.drop k (l ++ ms) = List.drop k l ++ ms := by
    rw [List.drop_append_eq_append_drop]
    have h0 : k - l.length = 0 := by omega
    rw [h0, List.drop_zero]
  rw [← h1, List.drop_drop, Nat.add_comm]

/-- The message list after one `add_message` is the last `max_history`
entries of the old list plus the new message. -/
theorem session_add_message_messages (now : Nat) (s : ConversationContext)
    (m : ConversationMessage) :
    (session_add_message now s m).messages =
      (s.messages ++ [m]).drop ((s.messages ++ [m]).length - max_history) := by
  simp only [session_add_message]
  exact trim_eq (s.messages ++ [m])

/-- `add_message` always increments `message_count`. -/
theorem session_add_message_count (now : Nat) (s : ConversationContext)
    (m : ConversationMessage) :
    (session_add_message now s m).message_count = s.message_count + 1 := rfl

/-- Folding `add_message` over a list of messages: the history is the last
`max_history` entries of everything ever appended, and `message_count`
counts all of it. -/
theorem foldl_add_messages (now : Nat) (ms : List ConversationMessage) :
    ∀ (s : ConversationContext), s.messages.length ≤ max_history →
      (ms.foldl (fun a m => session_add_message now a m) s).messages =
        (s.messages ++ ms).drop ((s.messages.length + ms.length) - max_history) ∧
      (ms.foldl (fun a m => session_add_message now a m) s).message_count =
        s.message_count + ms.length := by
  induction ms with
  | nil =>
      intro s hs
      constructor
      · simp only [List.foldl_nil, List.length_nil, Nat.add_zero,
          List.append_nil]
        have h0 : s.messages.length - max_history = 0 := by omega
        rw [h0, List.drop_zero]
      · rfl
  | cons m ms ih =>
      intro s hs
      have hstep := session_add_message_messages now s m
      have hlen1 : (session_add_message now s m).messages.length ≤
          max_history := by
        rw [hstep]
        simp only [List.length_drop, List.length_append]
        omega
      obtain ⟨ihm, ihc⟩ := ih (session_add_message now s m) hlen1
      constructor
      · rw [List.foldl_cons, ihm, hstep]
        have hassoc : s.messages ++ m :: ms = (s.messages ++ [m]) ++ ms := by
          rw [List.append_assoc, List.singleton_append]
        have hk : (s.messages ++ [m]).length - max_history ≤
            (s.messages ++ [m]).length := by omega
        rw [drop_chain _ _ _ _ hk, hassoc]
        congr 1
        simp only [List.length_drop, List.length_append, List.length_cons,
          List.length_nil]
        omega
      · rw [List.foldl_cons, ihc, session_add_message_count]
        simp only [List.length_cons]
        omega

/-- C6: starting from a fresh session, after any sequence of `add_message`
calls the history holds at most the cap (50) of messages; once more than
the cap have been appended exactly the cap's worth remain — precisely the
most recent ones in order (oldest evicted first, FIFO) — while
`message_count` still counts every message ever appended. -/
theorem c6_history_cap (ms : List ConversationMessage) (now0 now : Nat)
    (phone name : String) :
    (ms.foldl (fun a m => session_add_message now a m)
        (create_new_session now0 phone name)).messages =
      ms.drop (ms.length - max_history) ∧
    (ms.foldl (fun a m => session_add_message now a m)
        (create_new_session now0 phone name)).messages.length =
      min ms.length max_history ∧
    (ms.foldl (fun a m => session_add_message now a m)
        (create_new_session now0 phone name)).message_count = ms.length := by
  obtain ⟨hm, hc⟩ := foldl_add_messages now ms (create_new_session now0 phone name)
    (by simp [create_new_session])
  have hm2 : (ms.foldl (fun a m => session_add_message now a m)
      (create_new_session now0 phone name)).messages =
      ms.drop (ms.length - max_history) := by
    simpa [create_new_session] using hm
  refine ⟨hm2, ?_, by simpa [create_new_session] using hc⟩
  rw [hm2]
  simp only [List.length_drop]
  omega

/-! ### C7 — session expiry and single archival -/

/-- A successful dictionary lookup means the pair is in the table. -/
theorem findSession_mem :
    ∀ (l : List (String × ConversationContext)) (k : String)
      (v : ConversationContext), findSession l k = some v → (k, v) ∈ l := by
  intro l
  induction l with
  | nil => intro k v h; cases h
  | cons q l ih =>
      intro k v h
      obtain ⟨q1, q2⟩ := q
      by_cases hq : q1 = k
      · simp only [findSession] at h
        rw [if_pos hq] at h
        injection h with h2
        rw [← hq, ← h2]
        exact List.mem_cons_self _ _
      · simp only [findSession] at h
        rw [if_neg hq] at h
        exact List.mem_cons_of_mem _ (ih k v h)

/-- In a table with no duplicate keys, a key determines its value. -/
theorem keyUnique :
    ∀ (l : List (String × ConversationContext)) (k : String)
      (v w : ConversationContext), (l.map Prod.fst).Nodup →
      (k, v) ∈ l → (k, w) ∈ l → v = w := by
  intro l
  induction l with
  | nil => intro k v w _ hv _; cases hv
  | cons q l ih =>
      intro k v w hnd hv hw
      rw [List.map_cons, List.nodup_cons] at hnd
      rcases List.mem_cons.mp hv with hv1 | hv2 <;>
        rcases List.mem_cons.mp hw with hw1 | hw2
      · exact congrArg Prod.snd (hv1.trans hw1.symm)
      · exfalso
        apply hnd.1
        have hqk : q.1 = k := by rw [← hv1]
        rw [hqk]
        exact List.mem_map_of_mem Prod.fst hw2
      · exfalso
        apply hnd.1
        have hqk : q.1 = k := by rw [← hw1]
        rw [hqk]
        exact List.mem_map_of_mem Prod.fst hv2
      · exact ih k v w hnd.2 hv2 hw2

/-- After the cleanup sweep removed the expired sessions, the expired
session of a key is no longer found. -/
theorem findSession_filter_none (now : Nat)
    (l : List (String × ConversationContext)) (k : String)
    (s : ConversationContext)
    (hnd : (l.map Prod.fst).Nodup)
    (hmem : (k, s) ∈ l) (hexp : session_expired now s = true) :
    findSession (l.filter (fun p => !session_expired now p.2)) k = none := by
  cases hfind : findSession (l.filter (fun p => !session_expired now p.2)) k with
  | none => rfl
  | some w =>
      exfalso
      have hw := findSession_mem _ _ _ hfind
      have hwl : (k, w) ∈ l := List.mem_of_mem_filter hw
      have hwk : session_expired now w = false := by
        have h2 := List.of_mem_filter hw
        simpa using h2
      have hws : w = s := keyUnique l k w s hnd hwl hmem
      rw [hws, hexp] at hwk
      cases hwk

/-- If no entry of the table holds the session as its value, the archived
list of the sweep does not contain it. -/
theorem archived_zero (now : Nat)
    (l : List (String × ConversationContext)) (s : ConversationContext)
    (h : ∀ p ∈ l, p.2 ≠ s) :
    (((l.filter (fun p => session_expired now p.2)).map Prod.snd).filter
      (fun x => x = s)).length = 0 := by
  induction l with
  | nil => rfl
  | cons q l ih =>
      have hq : q.2 ≠ s := h q (List.mem_cons_self q l)
      have ht : ∀ p ∈ l, p.2 ≠ s := fun p hp => h p (List.mem_cons_of_mem q hp)
      by_cases he : session_expired now q.2 = true
      · simp only [List.filter_cons, he, if_true, List.map_cons,
          List.filter_cons]
        rw [if_neg (by simpa using hq)]
        exact ih ht
      · simp only [List.filter_cons, he, if_false]
        exact ih ht

/-- The cleanup sweep archives an expired session of a distinct-key table
exactly once. -/
theorem archived_once (now : Nat)
    (l : List (String × ConversationContext)) (k : String)
    (s : ConversationContext)
    (hnd : (l.map Prod.fst).Nodup)
    (hinv : ∀ p ∈ l, p.2.user_phone = p.1)
    (hmem : (k, s) ∈ l) (hs : s.user_phone = k)
    (hexp : session_expired now s = true) :
    (((l.filter (fun p => session_expired now p.2)).map Prod.snd).filter
      (fun x => x = s)).length = 1 := by
  induction l with
  | nil => cases hmem
  | cons q l ih =>
      rw [List.map_cons, List.nodup_cons] at hnd
      rcases List.mem_cons.mp hmem with hq | hmem2
      · -- the head is the entry for this key
        have hqk : q.1 = k := by rw [← hq]
        rw [← hq]
        simp only [List.filter_cons]
        rw [if_pos (by simpa using hexp)]
        simp only [List.map_cons, List.filter_cons]
        rw [if_pos (by simp)]
        simp only [List.length_cons]
        have hz : (((l.filter (fun p => session_expired now p.2)).map
            Prod.snd).filter (fun x => x = s)).length = 0 := by
          apply archived_zero
          intro p hp hps
          apply hnd.1
          have hpk : p.1 = k := by
            rw [← hs, ← hps]
            exact (hinv p (List.mem_cons_of_mem q hp)).symm
          rw [hqk, ← hpk]
          exact List.mem_map_of_mem Prod.fst hp
        rw [hz]
      · -- the entry is in the tail; the head's value cannot equal `s`
        have hqk : q.1 ≠ k := by
          intro hq1
          apply hnd.1
          rw [hq1]
          exact List.mem_map_of_mem Prod.fst hmem2
        have hqs : q.2 ≠ s := by
          intro hq2
          apply hqk
          rw [← hinv q (List.mem_cons_self q l), hq2, hs]
        have htail := ih hnd.2
          (fun p hp => hinv p (List.mem_cons_of_mem q hp)) hmem2
        by_cases he : session_expired now q.2 = true
        · simp only [List.filter_cons, he, if_true, List.map_cons,
            List.filter_cons]
          rw [if_neg (by simpa using hqs)]
          exact htail
        · simp only [List.filter_cons, he, if_false]
          exact htail

/-- C7: fetching a user's session whose `last_activity` is older than the
timeout returns a fresh session with a distinct `conversation_id`, and the
expired session is archived exactly once — by the periodic cleanup sweep
when it is due, else by the inline expiry check, never by both.  The
hypotheses are the store's maintained invariants: the table has one entry
per phone, each session records its own phone, its `conversation_id`
carries its creation epoch, and activity never precedes creation. -/
theorem c7_session_expiry (now : Nat) (phone name : String)
    (st : MemoryState) (s : ConversationContext)
    (hfind : findSession st.sessions phone = some s)
    (hnd : (st.sessions.map Prod.fst).Nodup)
    (hinv : ∀ p ∈ st.sessions, p.2.user_phone = p.1)
    (hexp : session_expired now s = true)
    (hcid : s.conversation_id = (phone, s.started_at))
    (hact : s.started_at ≤ s.last_activity) :
    (get_or_create_session now phone name st).1.conversation_id ≠
      s.conversation_id ∧
    (((get_or_create_session now phone name st).2.2).filter
      (fun x => x = s)).length = 1 := by
  have hmem : (phone, s) ∈ st.sessions := findSession_mem _ _ _ hfind
  have hs : s.user_phone = phone := hinv _ hmem
  have hlt : s.last_activity < now := by
    have h1 : now - s.last_activity > session_timeout := by
      simpa [session_expired] using hexp
    omega
  have hid : ((phone, now) : String × Nat) ≠ s.conversation_id := by
    rw [hcid]
    intro h
    have h2 : now = s.started_at := congrArg Prod.snd h
    omega
  by_cases hcl : now - st.last_cleanup > cleanup_interval
  · -- the periodic sweep runs, archives `s`, and the lookup then misses
    have hnone := findSession_filter_none now st.sessions phone s hnd hmem hexp
    simp only [get_or_create_session, cleanup_expired_sessions, if_pos hcl]
    rw [hnone]
    exact ⟨hid, archived_once now st.sessions phone s hnd hinv hmem hs hexp⟩
  · -- no sweep: the inline expiry check archives `s` once
    simp only [get_or_create_session, if_neg hcl, hfind]
    rw [if_pos hexp]
    refine ⟨hid, ?_⟩
    simp

/-- C7 witness: a concrete store with one stale session; the fetched
session has a new `conversation_id` and the stale one is archived once. -/
theorem c7_session_expiry_witness :
    (get_or_create_session 5000 "+971500000001" "Alex"
      { sessions := [("+971500000001", create_new_session 100 "+971500000001" "Alex")],
        last_cleanup := 0 }).1.conversation_id ≠
      (create_new_session 100 "+971500000001" "Alex").conversation_id ∧
    ((get_or_create_session 5000 "+971500000001" "Alex"
      { sessions := [("+971500000001", create_new_session 100 "+971500000001" "Alex")],
        last_cleanup := 0 }).2.2.filter
      (fun x => x = create_new_session 100 "+971500000001" "Alex")).length = 1 := by
  exact c7_session_expiry 5000 "+971500000001" "Alex"
    { sessions := [("+971500000001", create_new_session 100 "+971500000001" "Alex")],
      last_cleanup := 0 }
    (create_new_session 100 "+971500000001" "Alex")
    (by decide) (by decide) (by decide) (by decide) (by decide) (by decide)

/-! ### C9 — escalation boost on repeated frustration -/

/-- The frustration-history stage of `analyze_sentiment`: apply the repeat
boost (+3, capped at 10) exactly when the updated history shows repeat
frustration. -/
def boosted_urgency (u0 : Nat) (hist2 : List FrustEntry) : Nat :=
  if check_repeat_frustration hist2 then min (u0 + 3) 10 else u0

/-- Unfolding: the history `analyze_sentiment` leaves behind. -/
theorem analyze_sentiment_snd (m : String) (now : Nat)
    (hist : List FrustEntry) :
    (analyze_sentiment m now hist).2 =
      update_frustration_history now (sentiment_score_of (pyLower m.toList))
        (pre_boost_urgency (pyLower m.toList)) hist := rfl

/-- Unfolding: the urgency `analyze_sentiment` reports. -/
theorem analyze_sentiment_urgency (m : String) (now : Nat)
    (hist : List FrustEntry) :
    (analyze_sentiment m now hist).1.urgency =
      boosted_urgency (pre_boost_urgency (pyLower m.toList))
        (update_frustration_history now (sentiment_score_of (pyLower m.toList))
          (pre_boost_urgency (pyLower m.toList)) hist) := rfl

/-- Unfolding: the score `analyze_sentiment` reports. -/
theorem analyze_sentiment_score (m : String) (now : Nat)
    (hist : List FrustEntry) :
    (analyze_sentiment m now hist).1.score =
      sentiment_score_of (pyLower m.toList) := rfl

/-- Updating an empty frustration history keeps exactly the new entry. -/
theorem update_hist_empty (t : Nat) (sc : ℚ) (u : Nat) (ht : 0 < t) :
    update_frustration_history t sc u [] =
      [{ timestamp := t, sentiment := sc, urgency := u }] := by
  have hlt : t - frustration_window < t := by
    have hfw : frustration_window = 1800 := rfl
    omega
  simp only [update_frustration_history, List.nil_append, List.filter_cons,
    List.filter_nil]
  rw [if_pos (decide_eq_true hlt)]

/-- Updating a one-entry history whose entry is inside the window keeps
both entries, oldest first. -/
theorem update_hist_one (t : Nat) (sc : ℚ) (u : Nat) (e1 : FrustEntry)
    (hwin : t - frustration_window < e1.timestamp) (ht : 0 < t) :
    update_frustration_history t sc u [e1] =
      [e1, { timestamp := t, sentiment := sc, urgency := u }] := by
  have hlt : t - frustration_window < t := by
    have hfw : frustration_window = 1800 := rfl
    omega
  simp only [update_frustration_history, List.cons_append, List.nil_append,
    List.filter_cons, List.filter_nil]
  rw [if_pos (decide_eq_true hwin), if_pos (decide_eq_true hlt)]

/-- A one-entry history never triggers the repeat boost. -/
theorem boosted_one (u0 : Nat) (e : FrustEntry) :
    boosted_urgency u0 [e] = u0 := rfl

/-- Two negative entries trigger the repeat boost. -/
theorem check_repeat_two (e1 e2 : FrustEntry)
    (h1 : e1.sentiment < -(3 : ℚ)/10) (h2 : e2.sentiment < -(3 : ℚ)/10) :
    check_repeat_frustration [e1, e2] = true := by
  simp only [check_repeat_frustration, List.length_cons, List.length_nil]
  rw [if_neg (by omega)]
  simp only [decide_eq_true_eq]
  have hdrop : List.drop (0 + 1 + 1 - 3) [e1, e2] = [e1, e2] := rfl
  rw [hdrop]
  simp only [List.filter_cons, List.filter_nil]
  rw [if_pos (decide_eq_true h1), if_pos (decide_eq_true h2)]
  simp

/-- Evaluating the normalised score from the two keyword sums. -/
theorem sentiment_score_eval (ml : List Char) (n p : Nat)
    (hn : keyword_score negative_keywords ml = n)
    (hp : keyword_score positive_keywords ml = p) (hpos : 0 < n + p) :
    sentiment_score_of ml = ((p : ℚ) - (n : ℚ)) / (((n + p : Nat)) : ℚ) := by
  simp only [sentiment_score_of, hn, hp]
  rw [if_pos hpos]

/-- C9 counterexample: the claim promises a *strictly* higher urgency on
the second in-window negative message, but a message that already
saturates the urgency cap on its own (five urgency patterns ⇒ 10) gets the
same urgency 10 the second time: the boost cannot exceed the cap. -/
theorem c9_escalation_counterexample :
    (analyze_sentiment
      "urgent need help immediately asap right now losing money"
      10000 []).1.score < -(3 : ℚ)/10 ∧
    (analyze_sentiment
      "urgent need help immediately asap right now losing money"
      10060 []).1.urgency = 10 ∧
    (analyze_sentiment
      "urgent need help immediately asap right now losing money" 10060
      ((analyze_sentiment
        "urgent need help immediately asap right now losing money"
        10000 []).2)).1.urgency =
      (analyze_sentiment
        "urgent need help immediately asap right now losing money"
        10060 []).1.urgency := by
  have hsc : sentiment_score_of (pyLower
      "urgent need help immediately asap right now losing money".toList) =
      (((0 : Nat) : ℚ) - ((11 : Nat) : ℚ)) / (((11 + 0 : Nat)) : ℚ) :=
    sentiment_score_eval _ 11 0 (by decide) (by decide) (by decide)
  have hneg : sentiment_score_of (pyLower
      "urgent need help immediately asap right now losing money".toList) <
      -(3 : ℚ)/10 := by
    rw [hsc]; norm_num
  have hwinlt : (10060 : Nat) - frustration_window < 10000 := by
    have hfw : frustration_window = 1800 := rfl
    omega
  have hiso : (analyze_sentiment
      "urgent need help immediately asap right now losing money"
      10060 []).1.urgency = pre_boost_urgency (pyLower
      "urgent need help immediately asap right now losing money".toList) := by
    rw [analyze_sentiment_urgency, update_hist_empty _ _ _ (by omega),
      boosted_one]
  have hpre : pre_boost_urgency (pyLower
      "urgent need help immediately asap right now losing money".toList) =
      10 := by decide
  refine ⟨?_, ?_, ?_⟩
  · rw [analyze_sentiment_score]
    exact hneg
  · rw [hiso, hpre]
  · rw [analyze_sentiment_snd, update_hist_empty _ _ _
      (show 0 < (10000 : Nat) by omega)]
    rw [analyze_sentiment_urgency, update_hist_one _ _ _ _ hwinlt (by omega)]
    have hrep := check_repeat_two
      { timestamp := 10000,
        sentiment := sentiment_score_of (pyLower
          "urgent need help immediately asap right now losing money".toList),
        urgency := pre_boost_urgency (pyLower
          "urgent need help immediately asap right now losing money".toList) }
      { timestamp := 10060,
        sentiment := sentiment_score_of (pyLower
          "urgent need help immediately asap right now losing money".toList),
        urgency := pre_boost_urgency (pyLower
          "urgent need help immediately asap right now losing money".toList) }
      hneg hneg
    simp only [boosted_urgency, hrep, if_true]
    rw [hiso, hpre]
    decide

/-- C9 (amended): a single negative message analyzed from an empty history
gets no history boost (the history then holds one entry); a second
negative-scoring message (both scores below −0.3) inside the 30-minute
window gets urgency `min (isolated + 3) 10` — strictly higher than the
isolated urgency whenever the isolated urgency is below the cap 10, and
equal to it (10) when the message already saturates the cap on its own. -/
theorem c9_escalation_boost (m1 m2 : String) (t1 t2 : Nat)
    (ht1 : 0 < t1) (ht12 : t1 ≤ t2)
    (hwin : t2 - frustration_window < t1)
    (hs1 : sentiment_score_of (pyLower m1.toList) < -(3 : ℚ)/10)
    (hs2 : sentiment_score_of (pyLower m2.toList) < -(3 : ℚ)/10) :
    (analyze_sentiment m1 t1 []).1.urgency =
      pre_boost_urgency (pyLower m1.toList) ∧
    (analyze_sentiment m2 t2 (analyze_sentiment m1 t1 []).2).1.urgency =
      min ((analyze_sentiment m2 t2 []).1.urgency + 3) 10 ∧
    ((analyze_sentiment m2 t2 []).1.urgency < 10 →
      (analyze_sentiment m2 t2 []).1.urgency <
        (analyze_sentiment m2 t2 (analyze_sentiment m1 t1 []).2).1.urgency) := by
  have hu1 : (analyze_sentiment m1 t1 []).1.urgency =
      pre_boost_urgency (pyLower m1.toList) := by
    rw [analyze_sentiment_urgency, update_hist_empty _ _ _ ht1, boosted_one]
  have hu2iso : (analyze_sentiment m2 t2 []).1.urgency =
      pre_boost_urgency (pyLower m2.toList) := by
    rw [analyze_sentiment_urgency, update_hist_empty _ _ _ (by omega), boosted_one]
  have hsnd : (analyze_sentiment m1 t1 []).2 =
      [{ timestamp := t1, sentiment := sentiment_score_of (pyLower m1.toList),
         urgency := pre_boost_urgency (pyLower m1.toList) }] := by
    rw [analyze_sentiment_snd, update_hist_empty _ _ _ ht1]
  have hu2 : (analyze_sentiment m2 t2 (analyze_sentiment m1 t1 []).2).1.urgency =
      min (pre_boost_urgency (pyLower m2.toList) + 3) 10 := by
    rw [hsnd, analyze_sentiment_urgency, update_hist_one _ _ _ _ hwin (by omega)]
    have hrep := check_repeat_two
      { timestamp := t1, sentiment := sentiment_score_of (pyLower m1.toList),
        urgency := pre_boost_urgency (pyLower m1.toList) }
      { timestamp := t2, sentiment := sentiment_score_of (pyLower m2.toList),
        urgency := pre_boost_urgency (pyLower m2.toList) }
      hs1 hs2
    simp only [boosted_urgency, hrep, if_true]
  refine ⟨hu1, by rw [hu2, hu2iso], ?_⟩
  intro hlt
  rw [hu2iso] at hlt
  rw [hu2, hu2iso]
  omega

/-- C9 witness: "this is broken and failed" scores −1 and has isolated
urgency 0; analyzed a second time 60 seconds later the urgency is 3. -/
theorem c9_escalation_boost_witness :
    (analyze_sentiment "this is broken and failed" 10000 []).1.urgency = 0 ∧
    (analyze_sentiment "this is broken and failed" 10060
      ((analyze_sentiment "this is broken and failed" 10000 []).2)).1.urgency
      = 3 := by
  have hsc : sentiment_score_of (pyLower
      "this is broken and failed".toList) =
      (((0 : Nat) : ℚ) - ((4 : Nat) : ℚ)) / (((4 + 0 : Nat)) : ℚ) :=
    sentiment_score_eval _ 4 0 (by decide) (by decide) (by decide)
  have hneg : sentiment_score_of (pyLower
      "this is broken and failed".toList) < -(3 : ℚ)/10 := by
    rw [hsc]; norm_num
  have hwinlt : (10060 : Nat) - frustration_window < 10000 := by
    have hfw : frustration_window = 1800 := rfl
    omega
  have h := c9_escalation_boost "this is broken and failed"
    "this is broken and failed" 10000 10060 (by omega) (by omega)
    hwinlt hneg hneg
  have hiso : (analyze_sentiment "this is broken and failed"
      10060 []).1.urgency = pre_boost_urgency (pyLower
      "this is broken and failed".toList) := by
    rw [analyze_sentiment_urgency, update_hist_empty _ _ _ (by omega),
      boosted_one]
  constructor
  · rw [h.1]
    decide
  · rw [h.2.1, hiso]
    decide

end WhatsBot
